import Mathlib

set_option maxHeartbeats 1000000
set_option maxRecDepth 8000

/-!
Shallow embedding of `src/examples/1_linear_regression.py` (Bayesian linear
regression of crop yield on soil quality, numpyro).  Real-valued quantities are
embedded as exact rationals; the pseudo-random draw of a single distribution is
kept abstract as a pure function of the distribution expression and a key, and
library sampling semantics (Predictive, MCMC.get_samples, jax.random.split) are
modelled explicitly as deterministic functions.
-/

/-- Distribution expressions occurring in the numpyro models of the script
(`dist.Normal`, `dist.Exponential`, `dist.StudentT`,
`dist.LeftTruncatedDistribution`). -/
inductive DistExpr : Type where
  | normal (mu sigma : ℚ)
  | exponential (rate : ℚ)
  | studentT (df : ℚ) (loc : ℚ) (scale : ℚ)
  | leftTruncated (base : DistExpr) (low : ℚ)

/-- Modelled from the spec: the per-variable scaling statistics `scale_train`
returned by the data-loading collaborator `getData` (module
`util.load_yield_data`, which is not among the analysed sources).  Only the four
keys the script consumes are kept: soil-rating (bodenzahl) mean/std and
winter-wheat yield mean/std. -/
structure ScaleTrain : Type where
  bodenzahl_mean : ℚ
  bodenzahl_std : ℚ
  Winterweizen_yield_mean : ℚ
  Winterweizen_yield_std : ℚ

/-- Standardization `(x - mean) / std` used to produce the `_scaled` columns. -/
def standardize (mean std x : ℚ) : ℚ := (x - mean) / std

/-- De-standardization `x * std + mean`, as applied by the plotting code
(`x_range_scaled*scale_train['bodenzahl_std']+scale_train['bodenzahl_mean']` and
`y_hat_scaled*scale_train['Winterweizen_yield_std']+scale_train['Winterweizen_yield_mean']`). -/
def destandardize (mean std x : ℚ) : ℚ := x * std + mean

/-- Line 84 of the script:
`lowtrunc_scale = (0-scale_train['Winterweizen_yield_mean'])/scale_train['Winterweizen_yield_std']`. -/
def lowtrunc_scale (scale : ScaleTrain) : ℚ :=
  (0 - scale.Winterweizen_yield_mean) / scale.Winterweizen_yield_std

/-- A scalar-coefficient numpyro model of the script, reified: the prior of
`beta`, the prior of `sigma`, the explanatory data, the response distribution
of one record as a function of the sampled `beta`, `sigma` and the record's
soil value, and the observation passed through `obs=`. -/
structure ScalarModel : Type where
  betaPrior : DistExpr
  sigmaPrior : DistExpr
  soil : List ℚ
  respDist : ℚ → ℚ → ℚ → DistExpr
  respObs : Option (List ℚ)

/-- `def model(Soil, Yield=None)` of the script:
`beta ~ Normal(0,1)`, `sigma ~ Exponential(1)`,
`Yield ~ Normal(Soil*beta, sigma)` with `obs=Yield`. -/
def model (Soil : List ℚ) (Yield : Option (List ℚ)) : ScalarModel :=
  { betaPrior := DistExpr.normal 0 1
    sigmaPrior := DistExpr.exponential 1
    soil := Soil
    respDist := fun beta sigma s => DistExpr.normal (s * beta) sigma
    respObs := Yield }

/-- `def model_sigma_b(Soil, sigma_b, Yield=None)` of the script: same as
`model` but `beta ~ Normal(0, sigma_b)`. -/
def model_sigma_b (Soil : List ℚ) (sigma_b : ℚ) (Yield : Option (List ℚ)) : ScalarModel :=
  { betaPrior := DistExpr.normal 0 sigma_b
    sigmaPrior := DistExpr.exponential 1
    soil := Soil
    respDist := fun beta sigma s => DistExpr.normal (s * beta) sigma
    respObs := Yield }

/-- `def model_trunc(Soil, sigma_b, Yield=None)` of the script: same as
`model_sigma_b` but the response is a Student-t with `df = 5` degrees of
freedom, left-truncated at `lowtrunc_scale`.  The truncation point is the
module-level global computed from `scale_train`, passed here explicitly. -/
def model_trunc (scale : ScaleTrain) (Soil : List ℚ) (sigma_b : ℚ)
    (Yield : Option (List ℚ)) : ScalarModel :=
  { betaPrior := DistExpr.normal 0 sigma_b
    sigmaPrior := DistExpr.exponential 1
    soil := Soil
    respDist := fun beta sigma s =>
      DistExpr.leftTruncated (DistExpr.studentT 5 (s * beta) sigma) (lowtrunc_scale scale)
    respObs := Yield }

/-- Dot product of a design-matrix row with the coefficient vector,
the per-record meaning of `X @ beta`. -/
def dot (r b : List ℚ) : ℚ := (List.zipWith (· * ·) r b).sum

/-- A vector-coefficient numpyro model (the matrix-notation variant),
reified like `ScalarModel`. -/
structure MatrixModel : Type where
  betaPrior : List DistExpr
  sigmaPrior : DistExpr
  xMat : List (List ℚ)
  respDist : List ℚ → ℚ → List ℚ → DistExpr
  respObs : Option (List ℚ)

/-- `def model_matrix(X, Y=None)` of the script:
`beta ~ Normal(0,1).expand([X.shape[1]])`, `sigma ~ Exponential(4)`,
`Y ~ Normal(X @ beta, sigma)` with `obs=Y`. -/
def model_matrix (X : List (List ℚ)) (Y : Option (List ℚ)) : MatrixModel :=
  { betaPrior := List.replicate (X.headD []).length (DistExpr.normal 0 1)
    sigmaPrior := DistExpr.exponential 4
    xMat := X
    respDist := fun beta sigma row => DistExpr.normal (dot row beta) sigma
    respObs := Y }

/-- An abstract pure draw of one distribution at one PRNG key. -/
abbrev Draw : Type := DistExpr → Nat → ℚ

/-- The trace of one forward execution of a scalar model: values taken by the
sites `beta`, `sigma` and `Yield`. -/
structure ExecOut : Type where
  beta : ℚ
  sigma : ℚ
  yieldV : List ℚ

/-- The response values a scalar model generates when its response site is
unobserved: one draw of `respDist beta sigma s` per soil value `s`. -/
def ScalarModel.gen (m : ScalarModel) (draw : Draw) (key : Nat) : List ℚ :=
  let beta := draw m.betaPrior (Nat.pair key 0)
  let sigma := draw m.sigmaPrior (Nat.pair key 1)
  m.soil.enum.map (fun p => draw (m.respDist beta sigma p.2) (Nat.pair key (2 + p.1)))

/-- Modelled from the spec: one forward execution of a numpyro model trace.
A `numpyro.sample` site with `obs=None` takes a fresh draw from its declared
distribution; a site with an observation returns the observation. -/
def ScalarModel.exec (m : ScalarModel) (draw : Draw) (key : Nat) : ExecOut :=
  { beta := draw m.betaPrior (Nat.pair key 0)
    sigma := draw m.sigmaPrior (Nat.pair key 1)
    yieldV := m.respObs.getD (m.gen draw key) }

/-- The trace of one forward execution of the matrix model. -/
structure MExecOut : Type where
  beta : List ℚ
  sigma : ℚ
  respV : List ℚ

/-- The response values the matrix model generates when `Y` is unobserved. -/
def MatrixModel.gen (m : MatrixModel) (draw : Draw) (key : Nat) : List ℚ :=
  let beta := m.betaPrior.enum.map (fun p => draw p.2 (Nat.pair key p.1))
  let sigma := draw m.sigmaPrior (Nat.pair key m.betaPrior.length)
  m.xMat.enum.map (fun p =>
    draw (m.respDist beta sigma p.2) (Nat.pair key (m.betaPrior.length + 1 + p.1)))

/-- Modelled from the spec: one forward execution of the matrix model trace,
with the same `obs=` semantics as `ScalarModel.exec`. -/
def MatrixModel.exec (m : MatrixModel) (draw : Draw) (key : Nat) : MExecOut :=
  { beta := m.betaPrior.enum.map (fun p => draw p.2 (Nat.pair key p.1))
    sigma := draw m.sigmaPrior (Nat.pair key m.betaPrior.length)
    respV := m.respObs.getD (m.gen draw key) }

/-- A prior-predictive sample collection: per-site arrays of draws, one row per
requested sample. -/
structure PriorSamples : Type where
  beta : List ℚ
  sigma : List ℚ
  yieldV : List (List ℚ)

/-- Modelled from the spec: `numpyro.infer.Predictive(model, num_samples=N)`
executes the model `N` times with fresh per-run subkeys derived from the
supplied key; every site left unobserved (here all of them, since the script
omits `Yield`) is sampled, and the draws are stacked per site. -/
def Predictive (m : ScalarModel) (draw : Draw) (num_samples : Nat) (key : Nat) :
    PriorSamples :=
  let runs := (List.range num_samples).map (fun i => m.exec draw (Nat.pair key i))
  { beta := runs.map (fun r => r.beta)
    sigma := runs.map (fun r => r.sigma)
    yieldV := runs.map (fun r => r.yieldV) }

/-- The MCMC kernel algorithm selected by the script (`NUTS(model)`). -/
inductive KernelAlgo : Type where
  | nuts
  | hmc

/-- The configuration handed to `MCMC(kernel, ...)`. -/
structure MCMCConfig : Type where
  kernel : KernelAlgo
  num_warmup : Nat
  num_samples : Nat
  num_chains : Nat

/-- Line 119 and 120 of the script: `kernel = NUTS(model)` and
`mcmc = MCMC(kernel, num_samples=800, num_warmup=1000, num_chains=2)`. -/
def scriptMCMCConfig : MCMCConfig :=
  { kernel := KernelAlgo.nuts
    num_warmup := 1000
    num_samples := 800
    num_chains := 2 }

/-- Posterior sample arrays as returned by `mcmc.get_samples()`. -/
structure PostSamples : Type where
  beta : List ℚ
  sigma : List ℚ

/-- The record of one MCMC run: the model instance the kernel was run on
(conditioned on the observed yield) together with the retained samples. -/
structure MCMCRun : Type where
  conditioned : ScalarModel
  cfg : MCMCConfig
  samples : PostSamples

/-- An abstract pure posterior draw: `(beta, sigma)` of one retained MCMC
iteration as a function of a PRNG key. -/
abbrev PostDraw : Type := Nat → ℚ × ℚ

/-- Modelled from the spec: `mcmc.run(key, ...)` followed by
`mcmc.get_samples()`.  The retained draws are an opaque deterministic function
of the PRNG key, and `get_samples` flattens the chains, returning
`num_chains * num_samples` draws per parameter. -/
def runMCMC (post : PostDraw) (key : Nat) (cfg : MCMCConfig) (m : ScalarModel) :
    MCMCRun :=
  let n := cfg.num_chains * cfg.num_samples
  { conditioned := m
    cfg := cfg
    samples :=
      { beta := (List.range n).map (fun i => (post (Nat.pair key i)).1)
        sigma := (List.range n).map (fun i => (post (Nat.pair key i)).2) } }

/-- Modelled from the spec: `jax.random.split` deterministically derives two
fresh subkeys from a key; the script keeps the first component as the carried
key and spends the second on the next stochastic operation
(`rng_key, rng_key_ = random.split(rng_key)`). -/
def split (k : Nat) : Nat × Nat := (2 * k + 1, 2 * k + 2)

/-- Modelled from the spec: `jax.random.PRNGKey(seed)` builds the initial key
deterministically from the seed. -/
def PRNGKey (seed : Nat) : Nat := seed

/-- Line 103 of the script: `nPriorSamples = 1000`. -/
def nPriorSamples : Nat := 1000

/-- The loop header `for sigma_b in [1,5]`. -/
def sigmaBGrid : List ℚ := [1, 5]

/-- Line 100 of the script: `model = model_sigma_b`, rebinding the name the
sampling code calls. -/
def modelUsed : List ℚ → ℚ → Option (List ℚ) → ScalarModel := model_sigma_b

/-- One result unit appended to `lstRes`, extended with the PRNG keys spent on
its two stochastic operations. -/
structure RunResult : Type where
  prior_samples : PriorSamples
  mcmc : MCMCRun
  sigma_b : ℚ
  prior_key : Nat
  mcmc_key : Nat

/-- One iteration of the sampling loop: split the key and draw the prior
predictive with `Yield` omitted, split again and run MCMC conditioned on the
observed `Yield`; returns the result unit and the carried key. -/
def runOne (draw : Draw) (post : PostDraw) (Soil Yd : List ℚ) (key : Nat)
    (sb : ℚ) : RunResult × Nat :=
  let ks1 := split key
  let prior := Predictive (modelUsed Soil sb none) draw nPriorSamples ks1.2
  let ks2 := split ks1.1
  let mc := runMCMC post ks2.2 scriptMCMCConfig (modelUsed Soil sb (some Yd))
  ({ prior_samples := prior
     mcmc := mc
     sigma_b := sb
     prior_key := ks1.2
     mcmc_key := ks2.2 }, ks2.1)

/-- The sampling driver: seed the key with `PRNGKey`, then fold the loop body
over `sigmaBGrid`, accumulating `lstRes` and threading the carried key. -/
def scriptSampling (draw : Draw) (post : PostDraw) (Soil Yd : List ℚ)
    (seed : Nat) : List RunResult × Nat :=
  sigmaBGrid.foldl
    (fun acc sb =>
      let r := runOne draw post Soil Yd acc.2 sb
      (acc.1 ++ [r.1], r.2))
    ([], PRNGKey seed)

/-- The PRNG keys spent on stochastic operations, in program order. -/
def opKeysUsed (results : List RunResult) : List Nat :=
  results.foldr (fun r acc => r.prior_key :: r.mcmc_key :: acc) []

/-- The pinned version literal of line 34, `"0.13.0"`, as a character list. -/
def pinnedVer : List Char := ['0', '.', '1', '3', '.', '0']

/-- Python `str.startswith` on character lists. -/
def listStartsWith : List Char → List Char → Bool
  | [], _ => true
  | _ :: _, [] => false
  | a :: as, b :: bs => a == b && listStartsWith as bs

/-- Line 34 of the script: `numpyro.__version__.startswith("0.13.0")`. -/
def versionOk (v : List Char) : Bool := listStartsWith pinnedVer v

/-- The script as a fallible computation: the only fallible step is the
version assertion of line 34; everything after it is the total sampling
driver. -/
def scriptPipeline (v : List Char) (draw : Draw) (post : PostDraw)
    (Soil Yd : List ℚ) (seed : Nat) : Except String (List RunResult) :=
  if versionOk v then Except.ok (scriptSampling draw post Soil Yd seed).1
  else Except.error "AssertionError: numpyro version mismatch"

/-- `np.linspace(a, b, n)`: `n` evenly spaced points from `a` to `b`
inclusive. -/
def linspace (a b : ℚ) (n : Nat) : List ℚ :=
  (List.range n).map (fun i : Nat => a + (b - a) * (i : ℚ) / ((n - 1 : Nat) : ℚ))

/-- Lines 177 and 224 of the script: `x_range_scaled = np.linspace(-5,5,100)`. -/
def x_range_scaled : List ℚ := linspace (-5) 5 100

/-- `np.mean` of a 1-D array, used for `x_mean_scaled = Soil.mean(axis=0)`. -/
def npMean (l : List ℚ) : ℚ := l.sum / l.length

/-- The slice assignment `x_plot[:,0] = x_range_scaled`: replace column 0 of
each row by the corresponding grid value. -/
def setCol0 (rows : List (List ℚ)) (xs : List ℚ) : List (List ℚ) :=
  List.zipWith (fun row x => x :: row.tail) rows xs

/-- `x_plot = np.repeat(x_mean_scaled.reshape(1,-1),100,axis=0)` followed by
`x_plot[:,0] = x_range_scaled` (one explanatory column, `lstColX` has one
entry). -/
def x_plot (x_mean_scaled : ℚ) : List (List ℚ) :=
  setCol0 (List.replicate 100 [x_mean_scaled]) x_range_scaled

/-- `y_hat_scaled = x_plot @ prior_samples['beta'][i].reshape(-1,1)` for one
sampled coefficient. -/
def y_hat_scaled (x_mean_scaled beta_i : ℚ) : List ℚ :=
  (x_plot x_mean_scaled).map (fun row => dot row [beta_i])

/-- `y_hat = y_hat_scaled*scale_train['Winterweizen_yield_std']+scale_train['Winterweizen_yield_mean']`. -/
def y_hat (scale : ScaleTrain) (x_mean_scaled beta_i : ℚ) : List ℚ :=
  (y_hat_scaled x_mean_scaled beta_i).map
    (destandardize scale.Winterweizen_yield_mean scale.Winterweizen_yield_std)

/-- `x_range = x_range_scaled*scale_train['bodenzahl_std']+scale_train['bodenzahl_mean']`. -/
def x_range (scale : ScaleTrain) : List ℚ :=
  x_range_scaled.map (destandardize scale.bodenzahl_mean scale.bodenzahl_std)

/-- The sample indices of the regression-line fan loop `for i in range(1,300)`
(lines 182 and 230). -/
def fanIndices : List Nat := List.range' 1 299

/-- The family of de-standardized regression lines drawn by one fan loop:
one `y_hat` per beta sample index in `fanIndices`. -/
def fanLines (scale : ScaleTrain) (x_mean_scaled : ℚ) (betas : List ℚ) :
    List (List ℚ) :=
  fanIndices.map (fun i => y_hat scale x_mean_scaled (betas.getD i 0))

/-- Modelled from the spec: numpyro samples a left-truncated distribution by
inverse transform restricted to the upper tail: a uniform `u` is mapped to
`icdf (cdf low + u * (1 - cdf low))`, where `cdf`/`icdf` belong to the base
distribution. -/
def sampleLeftTruncated (cdf icdf : ℚ → ℚ) (low u : ℚ) : ℚ :=
  icdf (cdf low + u * (1 - cdf low))

/-! ## Helper lemmas -/

lemma listStartsWith_iff_append : ∀ (p v : List Char),
    listStartsWith p v = true ↔ ∃ t, p ++ t = v
  | [], v => by simp [listStartsWith]
  | _ :: _, [] => by simp [listStartsWith]
  | a :: as, b :: bs => by
    simp [listStartsWith, listStartsWith_iff_append as bs, List.cons_eq_cons]

lemma setCol0_replicate (m : ℚ) (xs : List ℚ) :
    setCol0 (List.replicate xs.length [m]) xs = xs.map (fun x => [x]) := by
  induction xs with
  | nil => rfl
  | cons a as ih =>
    simp only [List.length_cons, List.replicate_succ, setCol0, List.zipWith_cons_cons,
      List.tail_cons, List.map_cons]
    exact congrArg (List.cons [a]) ih

lemma y_hat_scaled_eq (xm b : ℚ) :
    y_hat_scaled xm b = x_range_scaled.map (fun x => x * b) := by
  have h : (100 : Nat) = x_range_scaled.length := by
    simp only [x_range_scaled, linspace, List.length_map, List.length_range]
  unfold y_hat_scaled x_plot
  rw [h, setCol0_replicate, List.map_map]
  simp [dot, Function.comp]

/-! ## Claims -/

/-- C5 (confirmed): `model` declares `beta ~ Normal(0,1)`,
`sigma ~ Exponential(1)` and `Yield ~ Normal(Soil*beta, sigma)`, and
`model_sigma_b` is identical except that the standard deviation of the `beta`
prior is the hyperparameter `sigma_b`; in particular `model_sigma_b` at
`sigma_b = 1` coincides with `model`. -/
theorem C5_joint (Soil : List ℚ) (Yd : Option (List ℚ)) (sb beta sigma s : ℚ) :
    (model Soil Yd).betaPrior = DistExpr.normal 0 1
    ∧ (model Soil Yd).sigmaPrior = DistExpr.exponential 1
    ∧ (model Soil Yd).respDist beta sigma s = DistExpr.normal (s * beta) sigma
    ∧ (model Soil Yd).respObs = Yd
    ∧ (model_sigma_b Soil sb Yd).betaPrior = DistExpr.normal 0 sb
    ∧ (model_sigma_b Soil sb Yd).sigmaPrior = DistExpr.exponential 1
    ∧ (model_sigma_b Soil sb Yd).respDist beta sigma s = DistExpr.normal (s * beta) sigma
    ∧ model_sigma_b Soil 1 Yd = model Soil Yd :=
  ⟨rfl, rfl, rfl, rfl, rfl, rfl, rfl, rfl⟩

/-- C4 (confirmed): for every model variant, when the response argument is the
default `none` the response site is unobserved and a forward execution returns
the freshly generated draws (a prior predictive sample); when the response is
provided, the site is conditioned on it and a forward execution returns exactly
the observation. -/
theorem C4_obs_semantics (Soil y : List ℚ) (sb : ℚ) (scale : ScaleTrain)
    (X : List (List ℚ)) (draw : Draw) (key : Nat) :
    ((model Soil none).respObs = none
      ∧ ((model Soil none).exec draw key).yieldV = (model Soil none).gen draw key
      ∧ (model Soil (some y)).respObs = some y
      ∧ ((model Soil (some y)).exec draw key).yieldV = y)
    ∧ ((model_sigma_b Soil sb none).respObs = none
      ∧ ((model_sigma_b Soil sb none).exec draw key).yieldV
          = (model_sigma_b Soil sb none).gen draw key
      ∧ (model_sigma_b Soil sb (some y)).respObs = some y
      ∧ ((model_sigma_b Soil sb (some y)).exec draw key).yieldV = y)
    ∧ ((model_trunc scale Soil sb none).respObs = none
      ∧ ((model_trunc scale Soil sb none).exec draw key).yieldV
          = (model_trunc scale Soil sb none).gen draw key
      ∧ (model_trunc scale Soil sb (some y)).respObs = some y
      ∧ ((model_trunc scale Soil sb (some y)).exec draw key).yieldV = y)
    ∧ ((model_matrix X none).respObs = none
      ∧ ((model_matrix X none).exec draw key).respV = (model_matrix X none).gen draw key
      ∧ (model_matrix X (some y)).respObs = some y
      ∧ ((model_matrix X (some y)).exec draw key).respV = y) :=
  ⟨⟨rfl, rfl, rfl, rfl⟩, ⟨rfl, rfl, rfl, rfl⟩, ⟨rfl, rfl, rfl, rfl⟩, ⟨rfl, rfl, rfl, rfl⟩⟩

/-- C2 (confirmed): the MCMC run is configured with a NUTS kernel, 1000
warm-up iterations, 800 retained samples per chain and 2 chains, and for both
prior-width settings the retained posterior collection has
`num_chains * num_samples = 1600` draws per parameter. -/
theorem C2_mcmc_config :
    scriptMCMCConfig.kernel = KernelAlgo.nuts
    ∧ scriptMCMCConfig.num_warmup = 1000
    ∧ scriptMCMCConfig.num_samples = 800
    ∧ scriptMCMCConfig.num_chains = 2
    ∧ ∀ (draw : Draw) (post : PostDraw) (Soil Yd : List ℚ) (seed : Nat),
        (scriptSampling draw post Soil Yd seed).1.map
            (fun r => (r.mcmc.cfg, r.mcmc.samples.beta.length,
              r.mcmc.samples.sigma.length, r.sigma_b))
          = [(scriptMCMCConfig, 1600, 1600, (1 : ℚ)),
             (scriptMCMCConfig, 1600, 1600, (5 : ℚ))] := by
  refine ⟨rfl, rfl, rfl, rfl, ?_⟩
  intro draw post Soil Yd seed
  simp [scriptSampling, sigmaBGrid, runOne, runMCMC, scriptMCMCConfig]

/-- C3 (confirmed): with `Yield` omitted, the prior predictive collection of
each result unit has exactly `nPriorSamples = 1000` draws for each site
(`beta`, `sigma` and `Yield`), and the prior samples do not depend on the
observed yield data. -/
theorem C3_prior_predictive :
    nPriorSamples = 1000
    ∧ (∀ (draw : Draw) (post : PostDraw) (Soil Yd : List ℚ) (seed : Nat),
        (scriptSampling draw post Soil Yd seed).1.map
            (fun r => (r.prior_samples.beta.length, r.prior_samples.sigma.length,
              r.prior_samples.yieldV.length))
          = [(1000, 1000, 1000), (1000, 1000, 1000)])
    ∧ (∀ (draw : Draw) (post : PostDraw) (Soil Yd Yd2 : List ℚ) (seed : Nat),
        (scriptSampling draw post Soil Yd seed).1.map (fun r => r.prior_samples)
          = (scriptSampling draw post Soil Yd2 seed).1.map (fun r => r.prior_samples)) := by
  refine ⟨rfl, ?_, ?_⟩
  · intro draw post Soil Yd seed
    simp [scriptSampling, sigmaBGrid, runOne, Predictive, nPriorSamples]
  · intro draw post Soil Yd Yd2 seed
    simp [scriptSampling, sigmaBGrid, runOne]

/-- C7 (confirmed): the script halts with the assertion error exactly when the
reported library version does not start with the pinned version string
`"0.13.0"`; otherwise the whole pipeline succeeds with the sampling results,
with no other fallible step. -/
theorem C7_version_gate (v : List Char) (draw : Draw) (post : PostDraw)
    (Soil Yd : List ℚ) (seed : Nat) :
    (scriptPipeline v draw post Soil Yd seed
        = Except.error "AssertionError: numpyro version mismatch"
      ↔ versionOk v = false)
    ∧ (scriptPipeline v draw post Soil Yd seed
        = Except.ok (scriptSampling draw post Soil Yd seed).1
      ↔ versionOk v = true)
    ∧ (versionOk v = true ↔ ∃ t, pinnedVer ++ t = v) := by
  refine ⟨?_, ?_, listStartsWith_iff_append pinnedVer v⟩
  · cases hv : versionOk v <;> simp [scriptPipeline, hv]
  · cases hv : versionOk v <;> simp [scriptPipeline, hv]

/-- C9 (confirmed): de-standardization inverts standardization for any
(mean, std) pair with nonzero std, and the plotting code applies exactly this
de-standardization to the soil axis (`x_range`) and the yield axis (`y_hat`). -/
theorem C9_roundtrip (scale : ScaleTrain) (x y xm b : ℚ)
    (h1 : scale.bodenzahl_std ≠ 0) (h2 : scale.Winterweizen_yield_std ≠ 0) :
    destandardize scale.bodenzahl_mean scale.bodenzahl_std
        (standardize scale.bodenzahl_mean scale.bodenzahl_std x) = x
    ∧ destandardize scale.Winterweizen_yield_mean scale.Winterweizen_yield_std
        (standardize scale.Winterweizen_yield_mean scale.Winterweizen_yield_std y) = y
    ∧ x_range scale
        = x_range_scaled.map (destandardize scale.bodenzahl_mean scale.bodenzahl_std)
    ∧ y_hat scale xm b
        = (y_hat_scaled xm b).map
            (destandardize scale.Winterweizen_yield_mean scale.Winterweizen_yield_std) := by
  refine ⟨?_, ?_, rfl, rfl⟩
  · unfold destandardize standardize
    rw [div_mul_cancel₀ _ h1]
    ring
  · unfold destandardize standardize
    rw [div_mul_cancel₀ _ h2]
    ring

/-- Witness for C9 at a concrete scaling record and concrete inputs. -/
theorem C9_witness :
    destandardize 2 3 (standardize 2 3 7) = 7
    ∧ destandardize 50 10 (standardize 50 10 11) = 11
    ∧ x_range ⟨2, 3, 50, 10⟩ = x_range_scaled.map (destandardize 2 3)
    ∧ y_hat ⟨2, 3, 50, 10⟩ 4 6 = (y_hat_scaled 4 6).map (destandardize 50 10) :=
  C9_roundtrip ⟨2, 3, 50, 10⟩ 7 11 4 6 (by decide) (by decide)

/-- C1 counterexample: the fan loop `for i in range(1,300)` does not use the
first 300 retained samples: it uses the 299 indices 1..299 and skips the
sample at index 0. -/
theorem C1_counterexample :
    fanIndices ≠ List.range 300 ∧ fanIndices.length = 299 ∧ 0 ∉ fanIndices := by
  refine ⟨by decide, by decide, by decide⟩

/-- C1 (corrected): the regression-line fan evaluates
`soil_value * beta_sample` over the 100-point grid `np.linspace(-5,5,100)`
spanning [-5, 5], for the retained beta samples with indices 1 through 299
(299 lines, the sample at index 0 being skipped), and de-standardizes both
axes with the scale_train mean/std pairs. -/
theorem C1_fan :
    x_range_scaled.length = 100
    ∧ x_range_scaled.head? = some (-5)
    ∧ x_range_scaled.getLast? = some 5
    ∧ fanIndices = (List.range 300).drop 1
    ∧ (∀ (scale : ScaleTrain) (xm : ℚ) (betas : List ℚ),
        fanLines scale xm betas
          = ((List.range 300).drop 1).map (fun i =>
              x_range_scaled.map (fun x =>
                destandardize scale.Winterweizen_yield_mean
                  scale.Winterweizen_yield_std (x * betas.getD i 0))))
    ∧ (∀ scale : ScaleTrain,
        x_range scale
          = x_range_scaled.map
              (destandardize scale.bodenzahl_mean scale.bodenzahl_std)) := by
  have hf : fanIndices = (List.range 300).drop 1 := by decide
  refine ⟨?_, ?_, ?_, hf, ?_, fun _ => rfl⟩
  · simp only [x_range_scaled, linspace, List.length_map, List.length_range]
  · rw [x_range_scaled, linspace, List.head?_map,
      show (List.range 100).head? = some 0 by decide]
    norm_num
  · rw [x_range_scaled, linspace, List.getLast?_map,
      show (List.range 100).getLast? = some 99 by decide]
    norm_num
  · intro scale xm betas
    have hline : ∀ i : Nat,
        (y_hat_scaled xm (betas.getD i 0)).map
            (destandardize scale.Winterweizen_yield_mean scale.Winterweizen_yield_std)
          = x_range_scaled.map (fun x =>
              destandardize scale.Winterweizen_yield_mean
                scale.Winterweizen_yield_std (x * betas.getD i 0)) := by
      intro i
      rw [y_hat_scaled_eq, List.map_map]
      rfl
    unfold fanLines y_hat
    rw [hf]
    simp only [hline]

/-- C6 (confirmed): in `model_trunc` the response is a Student-t with 5
degrees of freedom left-truncated at `lowtrunc_scale`, which is the
standardized value of a zero natural-unit yield; a draw from the truncated
distribution (inverse-transform sampling restricted to the upper tail of a
monotone cdf) is at or above the bound, and so is the standardization of any
nonnegative natural-unit yield observation. -/
theorem C6_truncation (scale : ScaleTrain) (Soil : List ℚ) (sb : ℚ)
    (Yd : Option (List ℚ)) (beta sigma s : ℚ) (cdf icdf : ℚ → ℚ) (u y : ℚ)
    (hstd : 0 < scale.Winterweizen_yield_std)
    (hm : Monotone icdf)
    (hinv : icdf (cdf (lowtrunc_scale scale)) = lowtrunc_scale scale)
    (hc : cdf (lowtrunc_scale scale) ≤ 1)
    (hu : 0 ≤ u) (hy : 0 ≤ y) :
    (model_trunc scale Soil sb Yd).respDist beta sigma s
        = DistExpr.leftTruncated (DistExpr.studentT 5 (s * beta) sigma)
            (lowtrunc_scale scale)
    ∧ lowtrunc_scale scale
        = standardize scale.Winterweizen_yield_mean scale.Winterweizen_yield_std 0
    ∧ lowtrunc_scale scale
        ≤ sampleLeftTruncated cdf icdf (lowtrunc_scale scale) u
    ∧ lowtrunc_scale scale
        ≤ standardize scale.Winterweizen_yield_mean scale.Winterweizen_yield_std y := by
  refine ⟨rfl, rfl, ?_, ?_⟩
  · have h1 : cdf (lowtrunc_scale scale)
        ≤ cdf (lowtrunc_scale scale) + u * (1 - cdf (lowtrunc_scale scale)) := by
      have := mul_nonneg hu (by linarith : (0 : ℚ) ≤ 1 - cdf (lowtrunc_scale scale))
      linarith
    calc lowtrunc_scale scale = icdf (cdf (lowtrunc_scale scale)) := hinv.symm
      _ ≤ sampleLeftTruncated cdf icdf (lowtrunc_scale scale) u := hm h1
  · unfold lowtrunc_scale standardize
    have h2 : (0 : ℚ) - scale.Winterweizen_yield_mean
        ≤ y - scale.Winterweizen_yield_mean := by linarith
    exact div_le_div_of_nonneg_right h2 hstd.le

/-- Witness for C6 at a concrete scaling record (yield mean 50, std 10, so the
bound is -5), with identity cdf/icdf, `u = 0` and observed yield `y = 3`. -/
theorem C6_witness :
    (model_trunc ⟨0, 1, 50, 10⟩ [0] 1 none).respDist 0 1 0
        = DistExpr.leftTruncated (DistExpr.studentT 5 (0 * 0) 1)
            (lowtrunc_scale ⟨0, 1, 50, 10⟩)
    ∧ lowtrunc_scale ⟨0, 1, 50, 10⟩ = standardize 50 10 0
    ∧ lowtrunc_scale ⟨0, 1, 50, 10⟩
        ≤ sampleLeftTruncated (fun x => x) (fun x => x)
            (lowtrunc_scale ⟨0, 1, 50, 10⟩) 0
    ∧ lowtrunc_scale ⟨0, 1, 50, 10⟩ ≤ standardize 50 10 3 :=
  C6_truncation ⟨0, 1, 50, 10⟩ [0] 1 none 0 1 0 (fun x => x) (fun x => x) 0 3
    (by norm_num) monotone_id rfl (by norm_num [lowtrunc_scale]) (by norm_num)
    (by norm_num)

/-- C8 (confirmed): with the key threading of the script, two runs with equal
seeds and identical inputs produce identical prior-sample collections, and the
subkeys spent on the four stochastic operations (prior predictive and MCMC for
each prior-width setting) are pairwise distinct, since the key is split
deterministically before each operation. -/
theorem C8_determinism (draw : Draw) (post : PostDraw) (Soil Yd : List ℚ)
    (s1 s2 : Nat) (h : s1 = s2) :
    (scriptSampling draw post Soil Yd s1).1.map (fun r => r.prior_samples)
      = (scriptSampling draw post Soil Yd s2).1.map (fun r => r.prior_samples)
    ∧ (opKeysUsed (scriptSampling draw post Soil Yd s1).1).Pairwise (· ≠ ·) := by
  subst h
  refine ⟨rfl, ?_⟩
  simp [scriptSampling, sigmaBGrid, runOne, opKeysUsed, split, PRNGKey,
    List.pairwise_cons]
  omega

/-- Witness for C8 at concrete inputs: constant draw functions, one-record
data, seed 1. -/
theorem C8_witness :
    (scriptSampling (fun _ _ => (0 : ℚ)) (fun _ => ((0 : ℚ), (0 : ℚ))) [0] [0] 1).1.map
        (fun r => r.prior_samples)
      = (scriptSampling (fun _ _ => (0 : ℚ)) (fun _ => ((0 : ℚ), (0 : ℚ))) [0] [0] 1).1.map
        (fun r => r.prior_samples)
    ∧ (opKeysUsed
        (scriptSampling (fun _ _ => (0 : ℚ)) (fun _ => ((0 : ℚ), (0 : ℚ))) [0] [0] 1).1).Pairwise
        (· ≠ ·) :=
  C8_determinism (fun _ _ => 0) (fun _ => (0, 0)) [0] [0] 1 1 rfl

/-- C10 (confirmed): the name `model` is rebound to `model_sigma_b` before any
sampling, every MCMC run conditions exactly `model_sigma_b` on the observed
yield, every prior predictive call samples exactly `model_sigma_b` with the
response omitted, and `model_trunc` (activated only by uncommenting a line)
differs from the executed model at every input. -/
theorem C10_model_rebinding :
    modelUsed = model_sigma_b
    ∧ (∀ (draw : Draw) (post : PostDraw) (Soil Yd : List ℚ) (seed : Nat),
        (scriptSampling draw post Soil Yd seed).1.map (fun r => r.mcmc.conditioned)
          = [model_sigma_b Soil 1 (some Yd), model_sigma_b Soil 5 (some Yd)]
        ∧ (scriptSampling draw post Soil Yd seed).1.map (fun r => r.prior_samples)
          = [Predictive (model_sigma_b Soil 1 none) draw nPriorSamples
               (split (PRNGKey seed)).2,
             Predictive (model_sigma_b Soil 5 none) draw nPriorSamples
               (split ((split ((split (PRNGKey seed)).1)).1)).2])
    ∧ (∀ (scale : ScaleTrain) (Soil : List ℚ) (sb : ℚ) (Yd : Option (List ℚ)),
        model_trunc scale Soil sb Yd ≠ model_sigma_b Soil sb Yd) := by
  refine ⟨rfl, ?_, ?_⟩
  · intro draw post Soil Yd seed
    constructor <;>
      simp [scriptSampling, sigmaBGrid, runOne, runMCMC, modelUsed, split, PRNGKey]
  · intro scale Soil sb Yd h
    have h2 := congrArg (fun m => m.respDist 0 1 0) h
    simp only [model_trunc, model_sigma_b] at h2
    exact DistExpr.noConfusion h2
